import Mathlib

/-!
# Verification of the OneDrive API client (src/OneDrive_API.py)

A shallow embedding of the session / connection lifecycle manager and the
bounded concurrent batch-transfer engine of the `OneDrive` class, together
with theorems settling the specification claims.

Modelling conventions:
* Python exceptions are modelled by `Option String` / `Except String` results;
  when an operation can leave a partially mutated object behind, the function
  returns the resulting state together with the optional raised message.
* Timestamps (`time.mktime(datetime.today().timetuple())`) are modelled as `Int`.
* HTTP traffic is modelled by environment parameters: a worker outcome per item,
  a probe result per attempt, an auth-endpoint response record.
* The per-batch thread launch / join barrier is modelled by processing the
  launched items of a batch as a list in launch order; the claims proved below
  only use order-insensitive facts (membership, counts, emptiness) about the
  per-batch error log, so the nondeterministic completion order of the threads
  is irrelevant to them.
-/

namespace OneDriveAPI

/-! ## ErrorSink (`_FetchErrors`, lines 201-211)

`joinSep` is Python's `sep.join(list)`. -/

def joinSep (sep : String) : List String → String
  | [] => ""
  | [x] => x
  | x :: y :: xs => x ++ sep ++ joinSep sep (y :: xs)

/-- `_FetchErrors(prefix)` (lines 201-211): under the mutex, if the error log is
non-empty, join all messages with `". "`, clear the log, prepend the prefix and
raise.  Returns `(raised message?, new error log)`. -/
def FetchErrors (pre : String) (errors : List String) : Option String × List String :=
  if errors.length ≠ 0 then (some (pre ++ joinSep ". " errors), [])
  else (none, errors)

/-! ## TokenLifecycle (`_RefreshToken` lines 135-150, `_CheckLastHeartbeat` lines 153-159) -/

/-- The JSON body returned by the auth endpoint; a `none` field models a missing
key (so that indexing it raises a `KeyError`). -/
structure AuthResponse where
  access_token : Option String
  refresh_token : Option String

/-- The token-related mutable state of the `OneDrive` object. -/
structure Session where
  token : String
  refresh_token : String
  last_updated : Int
  headers : List (String × String)
deriving Repr, DecidableEq

/-- Line 150: `self.headers = {'Authorization': 'Bearer ' + self.token}`. -/
def bearerHeaders (token : String) : List (String × String) :=
  [("Authorization", "Bearer " ++ token)]

/-- `_RefreshToken` (lines 135-150).  The source assigns
`self.token = json.loads(response.text)["access_token"]` first, then
`self.refresh_token = json.loads(response.text)["refresh_token"]`, then
`self.last_updated` and `self.headers`; a missing key raises at the
corresponding line, keeping all assignments made before it.
Returns `(resulting state, raised message?)`. -/
def RefreshToken (s : Session) (resp : AuthResponse) (now : Int) : Session × Option String :=
  match resp.access_token with
  | none => (s, some "KeyError: access_token")
  | some tok =>
    match resp.refresh_token with
    | none => ({ s with token := tok }, some "KeyError: refresh_token")
    | some rtok =>
      ({ token := tok, refresh_token := rtok, last_updated := now,
         headers := bearerHeaders tok }, none)

/-- `authHeaders` is derived from `accessToken` (the invariant of claim C6). -/
def headersSynced (s : Session) : Prop := s.headers = bearerHeaders s.token

instance (s : Session) : Decidable (headersSynced s) :=
  inferInstanceAs (Decidable (s.headers = bearerHeaders s.token))

/-- `_CheckLastHeartbeat` (lines 153-159): refresh iff
`now - self.last_updated > self.refresh_interval`.  The clock reading `now` is
also the one the triggered refresh stores (the claim's "clock unchanged between
the calls").  Returns `(state, raised message?, refresh triggered?)`. -/
def CheckLastHeartbeat (s : Session) (refresh_interval : Int) (resp : AuthResponse)
    (now : Int) : Session × Option String × Bool :=
  if now - s.last_updated > refresh_interval then
    ((RefreshToken s resp now).1, (RefreshToken s resp now).2, true)
  else (s, none, false)

/-! ## ConnectionGuard (`_CheckConnected`, lines 162-176)

```
attempts = 0
while not self.is_connected:
    attempts += 1
    if attempts == self.number_retry_connection: raise "Could not connect to OneDrive"
    self._Connect()          # refresh + probe; sets is_connected from the probe
    time.sleep(0.5)
```
`probe k` is the result of the `k`-th refresh-then-probe cycle (`_Connect`,
lines 122-131, 1-based).  The loop body raises when `attempts` reaches
`number_retry_connection` *before* probing, so probes happen at attempts
`1 .. number_retry_connection - 1` only.  `CheckConnectedLoop probe remaining
probes` models the loop with `remaining = number_retry_connection - attempts - 1`
probe opportunities left and `probes` cycles already performed; it returns
`(total probe count, raised message?)`.  (For `number_retry_connection ≤ 0` the
source loops forever; the claims below all assume `maxAttempts ≥ 1`.) -/
def CheckConnectedLoop (probe : Nat → Bool) : Nat → Nat → Nat × Option String
  | 0, probes => (probes, some "Could not connect to OneDrive")
  | remaining + 1, probes =>
    if probe (probes + 1) then (probes + 1, none)
    else CheckConnectedLoop probe remaining (probes + 1)

/-- `_CheckConnected` (lines 162-176), restricted to its retry loop: if already
connected the loop is skipped, otherwise it runs with `number_retry_connection`
as the attempt bound. -/
def CheckConnected (is_connected : Bool) (number_retry_connection : Nat)
    (probe : Nat → Bool) : Nat × Option String :=
  if is_connected then (0, none)
  else CheckConnectedLoop probe (number_retry_connection - 1) 0

/-! ## Configuration (`_SetsAndChecksVariable` lines 50-63,
`_SetsAndChecksVariableWithDefaultValue` lines 66-78, `_SetParameters` lines 81-104) -/

/-- A JSON settings value, as far as the type checks in the source discriminate. -/
inductive PVal where
  | pInt (n : Int)
  | pStr (s : String)
  | pList (l : List PVal)
  | pOther

/-- The types `_SetParameters` checks against (`int`, `str`, `list`). -/
inductive PType where
  | tInt
  | tStr
  | tList
deriving DecidableEq

/-- Python `isinstance(value, ty)` for the three types used. -/
def PVal.hasType : PVal → PType → Bool
  | .pInt _, .tInt => true
  | .pStr _, .tStr => true
  | .pList _, .tList => true
  | _, _ => false

def PVal.asInt : PVal → Int
  | .pInt n => n
  | _ => 0

def PVal.asStr : PVal → String
  | .pStr s => s
  | _ => ""

def PVal.asList : PVal → List PVal
  | .pList l => l
  | _ => []

/-- The settings dictionary (keys are unique in a Python dict; an association
list models it). -/
def lookupParam (params : List (String × PVal)) (var : String) : Option PVal :=
  (params.find? (fun p => p.1 == var)).map Prod.snd

/-- `_SetsAndChecksVariable` (lines 50-63): raise if the key is absent, raise if
the value fails the `isinstance` check, otherwise yield the value. -/
def SetsAndChecksVariable (params : List (String × PVal)) (var : String)
    (ty : PType) : Except String PVal :=
  match lookupParam params var with
  | none => .error ("The variable \"" ++ var ++ "\" is not given in the settings-json-file.")
  | some v =>
    if v.hasType ty then .ok v
    else .error ("The variable \"" ++ var ++ "\" did not match the specified data type")

/-- `_SetsAndChecksVariableWithDefaultValue` (lines 66-78): a bare `except:`
swallows *any* failure of the checked set (missing key or wrong type alike) and
installs the default instead. -/
def SetsAndChecksVariableWithDefaultValue (params : List (String × PVal)) (var : String)
    (default_value : Int) : Int :=
  match SetsAndChecksVariable params var .tInt with
  | .ok v => v.asInt
  | .error _ => default_value

/-- Lines 98-102: concatenate the permission strings with `+`; a non-string
element makes the `+` concatenation raise a `TypeError`. -/
def scopeOfPermissions (perms : List PVal) : Except String String :=
  if perms.all (fun v => v.hasType .tStr) then
    .ok (String.intercalate "+" (perms.map PVal.asStr))
  else .error "can only concatenate str to str"

/-- The member variables `_SetParameters` installs. -/
structure Params where
  max_threads : Int
  refresh_token : String
  url : String
  auth_url : String
  client_id : String
  permissions : List PVal
  redirect_uri : String
  refresh_interval : Int
  number_retry_connection : Int
  scope : String

/-- The body of `_SetParameters` (lines 86-102), before the outer
`except`-rewrap: each checked set raises out of the whole body on failure. -/
def SetParametersCore (params : List (String × PVal)) : Except String Params :=
  match SetsAndChecksVariable params "max_threads" .tInt with
  | .error e => .error e
  | .ok mt =>
    match SetsAndChecksVariable params "refresh_token" .tStr with
    | .error e => .error e
    | .ok rt =>
      match SetsAndChecksVariable params "browse_url" .tStr with
      | .error e => .error e
      | .ok bu =>
        match SetsAndChecksVariable params "auth_url" .tStr with
        | .error e => .error e
        | .ok au =>
          match SetsAndChecksVariable params "client_id" .tStr with
          | .error e => .error e
          | .ok ci =>
            match SetsAndChecksVariable params "permissions" .tList with
            | .error e => .error e
            | .ok pm =>
              match SetsAndChecksVariable params "redirect_uri" .tStr with
              | .error e => .error e
              | .ok ru =>
                match scopeOfPermissions pm.asList with
                | .error e => .error e
                | .ok sc =>
                  .ok { max_threads := mt.asInt, refresh_token := rt.asStr,
                        url := bu.asStr, auth_url := au.asStr, client_id := ci.asStr,
                        permissions := pm.asList, redirect_uri := ru.asStr,
                        refresh_interval :=
                          SetsAndChecksVariableWithDefaultValue params
                            "refresh_interval" 3600,
                        number_retry_connection :=
                          SetsAndChecksVariableWithDefaultValue params
                            "number_retry_connection" 50,
                        scope := sc }

/-- `_SetParameters` (lines 81-104): any failure is re-raised with the
`"Could not initialize parameters: "` prefix. -/
def SetParameters (params : List (String × PVal)) : Except String Params :=
  match SetParametersCore params with
  | .ok p => .ok p
  | .error e => .error ("Could not initialize parameters: " ++ e)

/-- `__init__` (lines 13-40) runs `_SetParameters` and only then
`_CheckConnected` (whose `_Connect` performs the first network call); a
configuration failure therefore prevents every network call. -/
def InitAttemptsNetwork (params : List (String × PVal)) : Bool :=
  match SetParameters params with
  | .ok _ => true
  | .error _ => false

/-- The seven settings `_SetParameters` requires (lines 87-93), with the type
each is checked against. -/
def requiredFields : List (String × PType) :=
  [("max_threads", .tInt), ("refresh_token", .tStr), ("browse_url", .tStr),
   ("auth_url", .tStr), ("client_id", .tStr), ("permissions", .tList),
   ("redirect_uri", .tStr)]

/-! ## `MoveFile` (lines 296-321)

After listing the source directory, the source iterates over the listed
filenames; on the first one equal to `arg_filename` it issues the patch
request, checks the response for an error key, drains the error log and
returns.  If no listed filename matches, the loop falls through and the
function returns `None` with nothing issued, recorded or raised.
`patchResp id = some code` models a patch response carrying an error object
with that code; `none` models a success payload. -/
structure MoveResult where
  patched : List String
  raised : Option String
  errors : List String
deriving Repr, DecidableEq

def MoveFile (src_path_onedrive : String) (files_ids : List (String × String))
    (arg_filename : String) (patchResp : String → Option String) : MoveResult :=
  match files_ids with
  | [] => ⟨[], none, []⟩
  | (filename, file_id) :: rest =>
    if filename == arg_filename then
      match patchResp file_id with
      | none => ⟨[file_id], none, []⟩
      | some code =>
        ⟨[file_id],
         some ("Could not move file " ++ src_path_onedrive ++ " (Code: " ++ code ++ ")"),
         []⟩
    else MoveFile src_path_onedrive rest arg_filename patchResp

/-! ## BatchTransferEngine (`Upload` lines 348-391, `Download` lines 394-440)

Both public operations run the same loop shape:

```
index = len(items)
while index > 0:
    number_threads = self.max_threads
    if index < self.max_threads: number_threads = index
    for i in range(number_threads):
        index -= 1
        filename = <transform> items[index]
        if <launch condition>: start worker thread for filename
    self._JoinThreads()
    self._FetchErrors(<prefix>)
```

`Upload` transforms each item with `filename.replace("\\", "/")` and launches
unconditionally; `Download` uses the raw listing key and launches only when the
`specific_file` filter passes (line 434).  A worker records at most one message
into the shared error log; `worker f = some m` means the worker for item `f`
records `m`, `none` means it succeeds.  The engine result collects the launched
workers of each executed batch, the items whose worker succeeded (the
persistent side effects: uploaded remote files / written local files), and the
aggregated error raised by `_FetchErrors`, if any. -/

/-- Per-item result of `UploadIntern` (lines 357-368) feeding `_CheckError`
(lines 178-198): a missing local file records the plain message with the
suffix, a parsed response dict with an error key records the message with the
code appended (line 192), a non-dict JSON value records the plain message
(line 193-194). -/
inductive UploadOutcome where
  | ok
  | missingFile
  | errorResponse (code : String)
  | nonDictResponse
deriving Repr, DecidableEq

def UploadIntern (filename : String) : UploadOutcome → Option String
  | .ok => none
  | .missingFile => some ("Could not upload " ++ filename ++ ": File does not exist")
  | .errorResponse code => some ("Could not upload " ++ filename ++ " (Code: " ++ code ++ ")")
  | .nonDictResponse => some ("Could not upload " ++ filename)

/-- Per-item result of `DownloadIntern` (lines 404-418): a non-ok HTTP response
records `"Could not download " + filename` (the response object branch of
`_CheckError`, lines 186-187, appends no code), and a failing local write
records `"Could not write " + path_local + " to drive"` (lines 415-418) —
a message that names the local directory, not the item. -/
inductive DownloadOutcome where
  | ok
  | remoteFail
  | writeFail
deriving Repr, DecidableEq

def DownloadIntern (path_local filename : String) : DownloadOutcome → Option String
  | .ok => none
  | .remoteFail => some ("Could not download " ++ filename)
  | .writeFail => some ("Could not write " ++ path_local ++ " to drive")

structure EngineResult where
  batches : List (List String)
  effects : List String
  raised : Option String
deriving Repr, DecidableEq

/-- Lines 379-381 / 428-430: `number_threads = min(max_threads, index)`
written exactly as the source writes it. -/
def numThreads (M index : Nat) : Nat :=
  if index < M then index else M

/-- The launched workers of one batch: the inner `for i in range(number_threads)`
loop reads `items[index - 1 - i]`, transforms it, and launches a worker when
the launch condition holds (always, for `Upload`; the `specific_file` test,
for `Download`). -/
def mkBatch (items : List String) (tr : String → String) (launch : String → Bool)
    (index nt : Nat) : List String :=
  ((List.range nt).map (fun i => tr (items.getD (index - 1 - i) ""))).filter launch

/-- The `while index > 0` loop.  `fuel` bounds the iteration count; every run
below starts it at `items.length`, which suffices because each iteration
decrements `index` by `numThreads M index ≥ 1` whenever `M ≥ 1` (for
`max_threads ≤ 0` and a non-empty list the source loops forever, launching
nothing; no claim touches that configuration).  The error log is empty when a
batch starts — the previous iteration either raised or found it empty — so the
batch's `_FetchErrors` call sees exactly the messages its own workers
recorded. -/
def BatchLoop (M : Nat) (items : List String) (tr : String → String)
    (launch : String → Bool) (worker : String → Option String) (pre : String) :
    Nat → Nat → List (List String) → List String → EngineResult
  | 0, _, accB, accE => ⟨accB, accE, none⟩
  | fuel + 1, index, accB, accE =>
    if index = 0 then ⟨accB, accE, none⟩
    else
      let nt := numThreads M index
      let batch := mkBatch items tr launch index nt
      match FetchErrors pre (batch.filterMap worker) with
      | (some msg, _) =>
        ⟨accB ++ [batch], accE ++ batch.filter (fun f => (worker f).isNone), some msg⟩
      | (none, _) =>
        BatchLoop M items tr launch worker pre fuel (index - nt)
          (accB ++ [batch]) (accE ++ batch.filter (fun f => (worker f).isNone))

/-- Line 385: `filename.replace("\\", "/")`.  The pattern is a single
character, so the replacement is the character-wise map. -/
def replaceBackslash (s : String) : String :=
  String.mk (s.data.map (fun c => if c = '\\' then '/' else c))

/-- `Upload` (lines 348-391): the worker outcome of a file is given on its
normalized (backslash-replaced) name, matching what `UploadIntern` receives. -/
def Upload (filenames : List String) (M : Nat) (outcome : String → UploadOutcome) :
    EngineResult :=
  BatchLoop M filenames replaceBackslash (fun _ => true)
    (fun f => UploadIntern f (outcome f)) "Could not upload all files: "
    filenames.length filenames.length [] []

/-- `Download` (lines 394-440): `keys` is the filename list of the source
directory listing (line 425); line 434 launches a worker for `filename` iff
`(specific_file != "" and specific_file == filename) or specific_file == ""`. -/
def Download (keys : List String) (specific_file path_local : String) (M : Nat)
    (outcome : String → DownloadOutcome) : EngineResult :=
  BatchLoop M keys (fun f => f)
    (fun filename => ((specific_file != "") && (specific_file == filename))
      || (specific_file == ""))
    (fun f => DownloadIntern path_local f (outcome f)) "Could not download all files: "
    keys.length keys.length [] []

/-- `sub` occurs as a contiguous substring of `s`. -/
def ContainsStr (s sub : String) : Prop :=
  List.IsInfix sub.data s.data

instance (s sub : String) : Decidable (ContainsStr s sub) :=
  inferInstanceAs (Decidable (List.IsInfix sub.data s.data))

/-! ## Helper lemmas about `FetchErrors` and the batch loop -/

theorem fetchErrors_of_nil {pre : String} {l : List String} (h : l = []) :
    FetchErrors pre l = (none, []) := by
  subst h
  simp [FetchErrors]

theorem fetchErrors_of_ne_nil {pre : String} {l : List String} (h : l ≠ []) :
    FetchErrors pre l = (some (pre ++ joinSep ". " l), []) := by
  have hlen : l.length ≠ 0 := by simpa using h
  simp [FetchErrors, hlen]

theorem numThreads_le_index (M index : Nat) : numThreads M index ≤ index := by
  unfold numThreads
  split <;> omega

theorem numThreads_pos {M index : Nat} (hM : 1 ≤ M) (h0 : index ≠ 0) :
    1 ≤ numThreads M index := by
  unfold numThreads
  split <;> omega

theorem numThreads_eq_min (M index : Nat) : numThreads M index = min M index := by
  unfold numThreads
  split <;> omega

/-- One unfolding of the batch loop when the batch records at least one
error: `_FetchErrors` raises and the loop stops. -/
theorem batchLoop_step_stop (M : Nat) (items : List String) (tr : String → String)
    (launch : String → Bool) (worker : String → Option String) (pre : String)
    (fuel index : Nat) (accB : List (List String)) (accE : List String)
    (h0 : index ≠ 0)
    (hE : (mkBatch items tr launch index (numThreads M index)).filterMap worker ≠ []) :
    BatchLoop M items tr launch worker pre (fuel + 1) index accB accE =
      ⟨accB ++ [mkBatch items tr launch index (numThreads M index)],
       accE ++ (mkBatch items tr launch index (numThreads M index)).filter
         (fun f => (worker f).isNone),
       some (pre ++ joinSep ". "
         ((mkBatch items tr launch index (numThreads M index)).filterMap worker))⟩ := by
  simp only [BatchLoop]
  rw [if_neg h0, fetchErrors_of_ne_nil hE]

/-- One unfolding of the batch loop when no worker of the batch records an
error: `_FetchErrors` is a no-op and the loop continues with the next chunk. -/
theorem batchLoop_step_go (M : Nat) (items : List String) (tr : String → String)
    (launch : String → Bool) (worker : String → Option String) (pre : String)
    (fuel index : Nat) (accB : List (List String)) (accE : List String)
    (h0 : index ≠ 0)
    (hE : (mkBatch items tr launch index (numThreads M index)).filterMap worker = []) :
    BatchLoop M items tr launch worker pre (fuel + 1) index accB accE =
      BatchLoop M items tr launch worker pre fuel (index - numThreads M index)
        (accB ++ [mkBatch items tr launch index (numThreads M index)])
        (accE ++ (mkBatch items tr launch index (numThreads M index)).filter
          (fun f => (worker f).isNone)) := by
  simp only [BatchLoop]
  rw [if_neg h0, fetchErrors_of_nil hE]

/-- The accumulators of the batch loop only collect results: the run is the
accumulator-free run with the accumulators prepended. -/
theorem batchLoop_acc (M : Nat) (items : List String) (tr : String → String)
    (launch : String → Bool) (worker : String → Option String) (pre : String) :
    ∀ (fuel index : Nat) (accB : List (List String)) (accE : List String),
      BatchLoop M items tr launch worker pre fuel index accB accE =
        ⟨accB ++ (BatchLoop M items tr launch worker pre fuel index [] []).batches,
         accE ++ (BatchLoop M items tr launch worker pre fuel index [] []).effects,
         (BatchLoop M items tr launch worker pre fuel index [] []).raised⟩
  | 0, index, accB, accE => by simp [BatchLoop]
  | fuel + 1, index, accB, accE => by
    by_cases h0 : index = 0
    · simp [BatchLoop, h0]
    · by_cases hE :
        (mkBatch items tr launch index (numThreads M index)).filterMap worker = []
      · rw [batchLoop_step_go M items tr launch worker pre fuel index accB accE h0 hE,
          batchLoop_step_go M items tr launch worker pre fuel index [] [] h0 hE,
          batchLoop_acc M items tr launch worker pre fuel (index - numThreads M index)
            (accB ++ [mkBatch items tr launch index (numThreads M index)])
            (accE ++ (mkBatch items tr launch index (numThreads M index)).filter
              (fun f => (worker f).isNone)),
          batchLoop_acc M items tr launch worker pre fuel (index - numThreads M index)
            ([] ++ [mkBatch items tr launch index (numThreads M index)])
            ([] ++ (mkBatch items tr launch index (numThreads M index)).filter
              (fun f => (worker f).isNone))]
        simp
      · rw [batchLoop_step_stop M items tr launch worker pre fuel index accB accE h0 hE,
          batchLoop_step_stop M items tr launch worker pre fuel index [] [] h0 hE]
        simp

/-- The inner `for` loop reads `items[index-1], items[index-2], ...`: as a
list, the reversed contiguous segment of length `nt` ending at `index`. -/
theorem range_map_getD (l : List String) (index nt : Nat) (h1 : nt ≤ index)
    (h2 : index ≤ l.length) :
    (List.range nt).map (fun i => l.getD (index - 1 - i) "") =
      ((l.take index).drop (index - nt)).reverse := by
  apply List.ext_getElem
  · simp only [List.length_map, List.length_range, List.length_reverse,
      List.length_drop, List.length_take]
    omega
  · intro n hn1 hn2
    simp only [List.length_map, List.length_range] at hn1
    have hlt : index - 1 - n < l.length := by omega
    simp only [List.getElem_map, List.getElem_range, List.getElem_reverse]
    rw [List.getD_eq_getElem l "" hlt]
    have hidx : ((l.take index).drop (index - nt)).length - 1 - n =
        nt - 1 - n := by
      simp only [List.length_drop, List.length_take]
      omega
    rw [List.getElem_drop]
    rw [List.getElem_take]
    congr 1
    simp only [List.length_drop, List.length_take] at hidx ⊢
    omega

/-- The launched workers of one batch, as a segment of the item list. -/
theorem mkBatch_eq (items : List String) (tr : String → String)
    (launch : String → Bool) (index nt : Nat) (h1 : nt ≤ index)
    (h2 : index ≤ items.length) :
    mkBatch items tr launch index nt =
      ((((items.take index).drop (index - nt)).map tr).reverse).filter launch := by
  unfold mkBatch
  have hcomp : (fun i => tr (items.getD (index - 1 - i) "")) =
      tr ∘ (fun i => items.getD (index - 1 - i) "") := rfl
  rw [hcomp, ← List.map_map, range_map_getD items index nt h1 h2, List.map_reverse]

/-- Gluing a freshly popped chunk onto the already-popped tail segment. -/
theorem segment_append (items : List String) (index nt popped : Nat)
    (h1 : nt ≤ index) (h2 : popped ≤ index - nt) (h3 : index ≤ items.length) :
    (items.take (index - nt)).drop ((index - nt) - popped) ++
        (items.take index).drop (index - nt) =
      (items.take index).drop (index - (nt + popped)) := by
  have htt : items.take (index - nt) = (items.take index).take (index - nt) := by
    rw [List.take_take]
    congr 1
    omega
  rw [htt]
  have hlen : index - nt ≤ ((items.take index).take (index - nt)).length := by
    simp only [List.length_take]
    omega
  have hidx : index - (nt + popped) = (index - nt) - popped := by omega
  rw [hidx]
  conv_rhs => rw [show (items.take index) =
    (items.take index).take (index - nt) ++ (items.take index).drop (index - nt) from
      (List.take_append_drop _ _).symm]
  rw [List.drop_append_of_le_length]
  simp only [List.length_take]
  omega

/-- The persistent side effects of a run are exactly the launched items whose
worker succeeded — in particular the effects of batches completed before a
failing batch are kept (nothing is rolled back). -/
theorem batchLoop_effects (M : Nat) (items : List String) (tr : String → String)
    (launch : String → Bool) (worker : String → Option String) (pre : String) :
    ∀ fuel index,
      (BatchLoop M items tr launch worker pre fuel index [] []).effects =
        (BatchLoop M items tr launch worker pre fuel index [] []).batches.flatten.filter
          (fun f => (worker f).isNone)
  | 0, _ => by simp [BatchLoop]
  | fuel + 1, index => by
    by_cases h0 : index = 0
    · simp [BatchLoop, h0]
    · by_cases hE :
        (mkBatch items tr launch index (numThreads M index)).filterMap worker = []
      · rw [batchLoop_step_go M items tr launch worker pre fuel index [] [] h0 hE,
          batchLoop_acc M items tr launch worker pre fuel (index - numThreads M index) _ _,
          batchLoop_effects M items tr launch worker pre fuel (index - numThreads M index)]
        simp [List.filter_append]
      · rw [batchLoop_step_stop M items tr launch worker pre fuel index [] [] h0 hE]
        simp [List.filter_append]

/-- A run that returns normally had only succeeding workers. -/
theorem batchLoop_ok_all (M : Nat) (items : List String) (tr : String → String)
    (launch : String → Bool) (worker : String → Option String) (pre : String) :
    ∀ fuel index,
      (BatchLoop M items tr launch worker pre fuel index [] []).raised = none →
      ∀ b ∈ (BatchLoop M items tr launch worker pre fuel index [] []).batches,
        ∀ f ∈ b, worker f = none
  | 0, _ => by simp [BatchLoop]
  | fuel + 1, index => by
    by_cases h0 : index = 0
    · simp [BatchLoop, h0]
    · by_cases hE :
        (mkBatch items tr launch index (numThreads M index)).filterMap worker = []
      · rw [batchLoop_step_go M items tr launch worker pre fuel index [] [] h0 hE,
          batchLoop_acc M items tr launch worker pre fuel (index - numThreads M index) _ _]
        intro hnone b hb f hf
        simp only [List.nil_append, List.cons_append, List.mem_cons] at hb
        rcases hb with rfl | hb
        · exact List.filterMap_eq_nil_iff.mp hE f hf
        · exact batchLoop_ok_all M items tr launch worker pre fuel
            (index - numThreads M index) hnone b hb f hf
      · rw [batchLoop_step_stop M items tr launch worker pre fuel index [] [] h0 hE]
        intro hnone
        simp at hnone

/-- A run that raises did so at its final batch: all earlier batches were
clean, the final batch recorded at least one message, and the raised message
is the context prefix followed by the final batch's messages joined by
`". "`. -/
theorem batchLoop_fail_package (M : Nat) (items : List String) (tr : String → String)
    (launch : String → Bool) (worker : String → Option String) (pre : String) :
    ∀ fuel index msg,
      (BatchLoop M items tr launch worker pre fuel index [] []).raised = some msg →
      ∃ bs lastb,
        (BatchLoop M items tr launch worker pre fuel index [] []).batches =
          bs ++ [lastb] ∧
        (∀ b ∈ bs, ∀ f ∈ b, worker f = none) ∧
        lastb.filterMap worker ≠ [] ∧
        msg = pre ++ joinSep ". " (lastb.filterMap worker)
  | 0, _, msg => by simp [BatchLoop]
  | fuel + 1, index, msg => by
    by_cases h0 : index = 0
    · simp [BatchLoop, h0]
    · by_cases hE :
        (mkBatch items tr launch index (numThreads M index)).filterMap worker = []
      · rw [batchLoop_step_go M items tr launch worker pre fuel index [] [] h0 hE,
          batchLoop_acc M items tr launch worker pre fuel (index - numThreads M index) _ _]
        intro hsome
        obtain ⟨bs, lastb, hbl, hclean, hne, hmsg⟩ :=
          batchLoop_fail_package M items tr launch worker pre fuel
            (index - numThreads M index) msg hsome
        refine ⟨mkBatch items tr launch index (numThreads M index) :: bs, lastb, ?_, ?_, hne, hmsg⟩
        · simp [hbl]
        · intro b hb f hf
          rcases List.mem_cons.mp hb with rfl | hb
          · exact List.filterMap_eq_nil_iff.mp hE f hf
          · exact hclean b hb f hf
      · rw [batchLoop_step_stop M items tr launch worker pre fuel index [] [] h0 hE]
        intro hsome
        refine ⟨[], mkBatch items tr launch index (numThreads M index), by simp, by simp, hE, ?_⟩
        simpa using hsome.symm

/-- The items launched by a run form a contiguous tail segment of the item
list (transformed, reversed, and filtered by the launch condition): the list
is consumed from its tail toward its head, and a run that returns normally
consumed all of it. -/
theorem batchLoop_flatten_segment (M : Nat) (items : List String) (tr : String → String)
    (launch : String → Bool) (worker : String → Option String) (pre : String)
    (hM : 1 ≤ M) :
    ∀ fuel index, index ≤ fuel → index ≤ items.length →
      ∃ popped, popped ≤ index ∧
        ((BatchLoop M items tr launch worker pre fuel index [] []).raised = none →
          popped = index) ∧
        (BatchLoop M items tr launch worker pre fuel index [] []).batches.flatten =
          ((((items.take index).drop (index - popped)).map tr).reverse).filter launch
  | 0, index, hif, _ => by
    have h0 : index = 0 := by omega
    subst h0
    exact ⟨0, le_refl 0, fun _ => rfl, by simp [BatchLoop]⟩
  | fuel + 1, index, hif, hil => by
    by_cases h0 : index = 0
    · subst h0
      exact ⟨0, le_refl 0, fun _ => rfl, by simp [BatchLoop]⟩
    · have hnt1 : 1 ≤ numThreads M index := numThreads_pos hM h0
      have hnti : numThreads M index ≤ index := numThreads_le_index M index
      have hbatch := mkBatch_eq items tr launch index (numThreads M index) hnti hil
      by_cases hE :
        (mkBatch items tr launch index (numThreads M index)).filterMap worker = []
      · rw [batchLoop_step_go M items tr launch worker pre fuel index [] [] h0 hE,
          batchLoop_acc M items tr launch worker pre fuel (index - numThreads M index) _ _]
        obtain ⟨popped, hp1, hp2, hp3⟩ :=
          batchLoop_flatten_segment M items tr launch worker pre hM fuel
            (index - numThreads M index) (by omega) (by omega)
        refine ⟨numThreads M index + popped, by omega, ?_, ?_⟩
        · intro hnone
          have := hp2 hnone
          omega
        · simp only [List.nil_append, List.cons_append, List.flatten_cons]
          rw [hp3, hbatch, ← List.filter_append, ← List.reverse_append, ← List.map_append,
            segment_append items index (numThreads M index) popped hnti (by omega) hil]
      · rw [batchLoop_step_stop M items tr launch worker pre fuel index [] [] h0 hE]
        refine ⟨numThreads M index, hnti, by simp, ?_⟩
        simpa using hbatch

/-- When every item passes the launch condition and every worker succeeds, the
batch sizes are `M, M, ..., M, index mod M` (the final partial chunk only when
`M` does not divide `index`), and the run returns normally. -/
theorem batchLoop_sizes (M : Nat) (items : List String) (tr : String → String)
    (launch : String → Bool) (worker : String → Option String) (pre : String)
    (hM : 1 ≤ M) (hlaunch : ∀ f, launch f = true) (hok : ∀ f, worker f = none) :
    ∀ fuel index, index ≤ fuel →
      (BatchLoop M items tr launch worker pre fuel index [] []).batches.map List.length =
        List.replicate (index / M) M ++
          (if index % M = 0 then [] else [index % M]) ∧
      (BatchLoop M items tr launch worker pre fuel index [] []).raised = none
  | 0, index, hif => by
    have h0 : index = 0 := by omega
    subst h0
    simp [BatchLoop]
  | fuel + 1, index, hif => by
    by_cases h0 : index = 0
    · subst h0
      simp [BatchLoop]
    · have hE : (mkBatch items tr launch index (numThreads M index)).filterMap worker = [] :=
        List.filterMap_eq_nil_iff.mpr (fun a _ => hok a)
      have hnt1 : 1 ≤ numThreads M index := numThreads_pos hM h0
      have hnti : numThreads M index ≤ index := numThreads_le_index M index
      rw [batchLoop_step_go M items tr launch worker pre fuel index [] [] h0 hE,
        batchLoop_acc M items tr launch worker pre fuel (index - numThreads M index) _ _]
      obtain ⟨ih1, ih2⟩ := batchLoop_sizes M items tr launch worker pre hM hlaunch hok
        fuel (index - numThreads M index) (by omega)
      refine ⟨?_, ih2⟩
      simp only [List.nil_append, List.cons_append, List.map_cons, ih1]
      have hblen : (mkBatch items tr launch index (numThreads M index)).length =
          numThreads M index := by
        unfold mkBatch
        rw [List.filter_eq_self.mpr (fun a _ => hlaunch a)]
        simp
      rw [hblen]
      by_cases hlt : index < M
      · have hnt : numThreads M index = index := by
          unfold numThreads
          rw [if_pos hlt]
        rw [hnt]
        rw [Nat.div_eq_of_lt hlt, Nat.mod_eq_of_lt hlt, if_neg h0]
        simp
      · have hnt : numThreads M index = M := by
          unfold numThreads
          rw [if_neg hlt]
        have hle : M ≤ index := by omega
        rw [hnt]
        rw [Nat.div_eq_sub_div (by omega) hle, Nat.mod_eq_sub_mod hle,
          List.replicate_succ]
        simp

/-! ## Substring helpers for the aggregated messages -/

theorem infix_joinSep {m : String} (sep : String) {l : List String} (h : m ∈ l) :
    List.IsInfix m.data (joinSep sep l).data := by
  induction l with
  | nil => cases h
  | cons x xs ih =>
    cases xs with
    | nil =>
      rcases List.mem_cons.mp h with rfl | h
      · exact List.infix_refl _
      · cases h
    | cons y ys =>
      rcases List.mem_cons.mp h with rfl | hm
      · show List.IsInfix m.data (m ++ sep ++ joinSep sep (y :: ys)).data
        rw [String.data_append, String.data_append, List.append_assoc]
        exact (List.prefix_append m.data _).isInfix
      · have h1 := ih hm
        show List.IsInfix m.data (x ++ sep ++ joinSep sep (y :: ys)).data
        rw [String.data_append]
        exact h1.trans (List.suffix_append _ _).isInfix

/-- A recorded message occurs inside the aggregated message raised by
`_FetchErrors`. -/
theorem containsStr_msg {pre e msg : String} {errs : List String}
    (hmsg : msg = pre ++ joinSep ". " errs) (he : e ∈ errs) {f : String}
    (hf : List.IsInfix f.data e.data) : ContainsStr msg f := by
  subst hmsg
  unfold ContainsStr
  rw [String.data_append]
  exact (hf.trans (infix_joinSep ". " he)).trans (List.suffix_append _ _).isInfix

/-- Every message `UploadIntern` records names the file it was working on. -/
theorem uploadIntern_names_file {f e : String} {o : UploadOutcome}
    (h : UploadIntern f o = some e) : List.IsInfix f.data e.data := by
  cases o with
  | ok => simp [UploadIntern] at h
  | missingFile =>
    obtain rfl : ("Could not upload " ++ f ++ ": File does not exist") = e := by
      simpa [UploadIntern] using h
    exact ⟨"Could not upload ".data, ": File does not exist".data, by
      simp [String.data_append]⟩
  | errorResponse code =>
    obtain rfl : ("Could not upload " ++ f ++ " (Code: " ++ code ++ ")") = e := by
      simpa [UploadIntern] using h
    exact ⟨"Could not upload ".data, (" (Code: " ++ code ++ ")").data, by
      simp [String.data_append]⟩
  | nonDictResponse =>
    obtain rfl : ("Could not upload " ++ f) = e := by simpa [UploadIntern] using h
    exact ⟨"Could not upload ".data, [], by simp [String.data_append]⟩

theorem filter_true_eq (l : List String) : l.filter (fun _ => true) = l :=
  List.filter_eq_self.mpr (fun _ _ => rfl)

/-! ## Claim C1: fail-fast at batch granularity -/

/-- C1 counterexample: a `Download` batch whose only failure happens at the
local write step records `"Could not write <path_local> to drive"` — a message
that does not contain the failing item's name.  The engine does raise a single
aggregated error and abandons the rest, but the claim's "whose message
contains the failing item's identifying name" is false for this run: the item
is named `"zz"` and the raised message contains no `"zz"`. -/
theorem download_writeFail_counterexample :
    (Download ["zz"] "" "p" 1 (fun _ => DownloadOutcome.writeFail)).raised =
        some "Could not download all files: Could not write p to drive" ∧
    "zz" ∈ (Download ["zz"] "" "p" 1 (fun _ => DownloadOutcome.writeFail)).batches.flatten ∧
    DownloadIntern "p" "zz" DownloadOutcome.writeFail ≠ none ∧
    ¬ ContainsStr "Could not download all files: Could not write p to drive" "zz" := by
  decide

/-- C1 as amended.  For every run of `Upload`, and every run of `Download`, in
which at least one launched item records a failure: the engine finishes that
batch, raises exactly one aggregated error after the batch's join barrier, and
launches no worker for the remaining un-popped items (everything launched is a
contiguous tail segment of the item list); all batches before the final one
were clean; at least one item of the final batch failed; the aggregated
message contains the identifying name of every failing item whose recorded
message names it — that is every `Upload` failure, and every `Download` item
that failed remotely (a `Download` item failing at the local write step is
recorded as a message naming the local directory instead); and the side
effects of all completed batches are kept (the effects are exactly the
launched items whose worker succeeded — no rollback). -/
theorem batch_fail_fast (files keys : List String) (M : Nat)
    (specific_file path_local : String)
    (uout : String → UploadOutcome) (dout : String → DownloadOutcome)
    (hM : 1 ≤ M)
    (hufail : ∃ b ∈ (Upload files M uout).batches, ∃ f ∈ b,
      UploadIntern f (uout f) ≠ none)
    (hdfail : ∃ b ∈ (Download keys specific_file path_local M dout).batches, ∃ f ∈ b,
      DownloadIntern path_local f (dout f) ≠ none) :
    (∃ msg bs lastb, (Upload files M uout).raised = some msg ∧
      (Upload files M uout).batches = bs ++ [lastb] ∧
      (∀ b ∈ bs, ∀ f ∈ b, UploadIntern f (uout f) = none) ∧
      (∃ f ∈ lastb, UploadIntern f (uout f) ≠ none) ∧
      (∀ f ∈ lastb, UploadIntern f (uout f) ≠ none → ContainsStr msg f) ∧
      (∃ popped, popped ≤ files.length ∧
        (Upload files M uout).batches.flatten =
          ((files.drop (files.length - popped)).map replaceBackslash).reverse) ∧
      (Upload files M uout).effects =
        (Upload files M uout).batches.flatten.filter
          (fun f => (UploadIntern f (uout f)).isNone)) ∧
    (∃ msg bs lastb, (Download keys specific_file path_local M dout).raised = some msg ∧
      (Download keys specific_file path_local M dout).batches = bs ++ [lastb] ∧
      (∀ b ∈ bs, ∀ f ∈ b, DownloadIntern path_local f (dout f) = none) ∧
      (∃ f ∈ lastb, DownloadIntern path_local f (dout f) ≠ none) ∧
      (∀ f ∈ lastb, dout f = DownloadOutcome.remoteFail → ContainsStr msg f) ∧
      (∃ popped, popped ≤ keys.length ∧
        (Download keys specific_file path_local M dout).batches.flatten =
          ((keys.drop (keys.length - popped)).reverse).filter
            (fun filename => ((specific_file != "") && (specific_file == filename))
              || (specific_file == ""))) ∧
      (Download keys specific_file path_local M dout).effects =
        (Download keys specific_file path_local M dout).batches.flatten.filter
          (fun f => (DownloadIntern path_local f (dout f)).isNone)) := by
  constructor
  · -- Upload
    cases hr : (Upload files M uout).raised with
    | none =>
      exfalso
      obtain ⟨b, hb, f, hf, hne⟩ := hufail
      exact hne (batchLoop_ok_all M files replaceBackslash (fun _ => true)
        (fun f => UploadIntern f (uout f)) "Could not upload all files: "
        files.length files.length hr b hb f hf)
    | some msg =>
      obtain ⟨bs, lastb, hbatches, hclean, hne, hmsg⟩ :=
        batchLoop_fail_package M files replaceBackslash (fun _ => true)
          (fun f => UploadIntern f (uout f)) "Could not upload all files: "
          files.length files.length msg hr
      obtain ⟨e, he⟩ := List.exists_mem_of_ne_nil _ hne
      obtain ⟨f0, hf0, hwf0⟩ := List.mem_filterMap.mp he
      obtain ⟨popped, hple, _, hflat⟩ :=
        batchLoop_flatten_segment M files replaceBackslash (fun _ => true)
          (fun f => UploadIntern f (uout f)) "Could not upload all files: " hM
          files.length files.length (le_refl _) (le_refl _)
      rw [List.take_length, filter_true_eq] at hflat
      refine ⟨msg, bs, lastb, rfl, hbatches, hclean, ⟨f0, hf0, by simp [hwf0]⟩,
        ?_, ⟨popped, hple, hflat⟩,
        batchLoop_effects M files replaceBackslash (fun _ => true)
          (fun f => UploadIntern f (uout f)) "Could not upload all files: "
          files.length files.length⟩
      intro f hf hfne
      obtain ⟨e1, he1⟩ := Option.ne_none_iff_exists'.mp hfne
      exact containsStr_msg hmsg (List.mem_filterMap.mpr ⟨f, hf, he1⟩)
        (uploadIntern_names_file he1)
  · -- Download
    cases hr : (Download keys specific_file path_local M dout).raised with
    | none =>
      exfalso
      obtain ⟨b, hb, f, hf, hne⟩ := hdfail
      exact hne (batchLoop_ok_all M keys (fun f => f)
        (fun filename => ((specific_file != "") && (specific_file == filename))
          || (specific_file == ""))
        (fun f => DownloadIntern path_local f (dout f)) "Could not download all files: "
        keys.length keys.length hr b hb f hf)
    | some msg =>
      obtain ⟨bs, lastb, hbatches, hclean, hne, hmsg⟩ :=
        batchLoop_fail_package M keys (fun f => f)
          (fun filename => ((specific_file != "") && (specific_file == filename))
            || (specific_file == ""))
          (fun f => DownloadIntern path_local f (dout f)) "Could not download all files: "
          keys.length keys.length msg hr
      obtain ⟨e, he⟩ := List.exists_mem_of_ne_nil _ hne
      obtain ⟨f0, hf0, hwf0⟩ := List.mem_filterMap.mp he
      obtain ⟨popped, hple, _, hflat⟩ :=
        batchLoop_flatten_segment M keys (fun f => f)
          (fun filename => ((specific_file != "") && (specific_file == filename))
            || (specific_file == ""))
          (fun f => DownloadIntern path_local f (dout f)) "Could not download all files: "
          hM keys.length keys.length (le_refl _) (le_refl _)
      rw [List.take_length, List.map_id'] at hflat
      refine ⟨msg, bs, lastb, rfl, hbatches, hclean, ⟨f0, hf0, by simp [hwf0]⟩,
        ?_, ⟨popped, hple, hflat⟩,
        batchLoop_effects M keys (fun f => f)
          (fun filename => ((specific_file != "") && (specific_file == filename))
            || (specific_file == ""))
          (fun f => DownloadIntern path_local f (dout f)) "Could not download all files: "
          keys.length keys.length⟩
      intro f hf hdf
      have he1 : DownloadIntern path_local f (dout f) =
          some ("Could not download " ++ f) := by rw [hdf]; rfl
      exact containsStr_msg hmsg (List.mem_filterMap.mpr ⟨f, hf, he1⟩)
        ⟨"Could not download ".data, [], by simp [String.data_append]⟩

theorem batch_fail_fast_witness :
    (∃ msg, (Upload ["a", "b"] 1
      (fun f => if f == "b" then UploadOutcome.nonDictResponse else UploadOutcome.ok)).raised
        = some msg) ∧
    (∃ msg, (Download ["k"] "" "p" 1 (fun _ => DownloadOutcome.remoteFail)).raised
        = some msg) := by
  obtain ⟨⟨msg1, bs1, lastb1, hr1, -⟩, ⟨msg2, bs2, lastb2, hr2, -⟩⟩ :=
    batch_fail_fast ["a", "b"] ["k"] 1 "" "p"
      (fun f => if f == "b" then UploadOutcome.nonDictResponse else UploadOutcome.ok)
      (fun _ => DownloadOutcome.remoteFail)
      (by decide) (by decide) (by decide)
  exact ⟨⟨msg1, hr1⟩, ⟨msg2, hr2⟩⟩

/-! ## Claim C2: batch partition counts -/

theorem ceil_div_eq (L M : Nat) (hM : 1 ≤ M) :
    L / M + (if L % M = 0 then 0 else 1) = (L + M - 1) / M := by
  have hdm := Nat.div_add_mod L M
  have hmod := Nat.mod_lt L (show 0 < M by omega)
  by_cases hr : L % M = 0
  · rw [if_pos hr]
    have hL : L + M - 1 = M * (L / M) + (M - 1) := by omega
    rw [hL, Nat.mul_add_div (show 0 < M by omega),
      Nat.div_eq_of_lt (show M - 1 < M by omega)]
  · rw [if_neg hr]
    have hL : L + M - 1 = M * (L / M) + (L % M + M - 1) := by omega
    rw [hL, Nat.mul_add_div (show 0 < M by omega)]
    have h1 : (L % M + M - 1) / M = 1 := by
      rw [Nat.div_eq_sub_div (by omega) (by omega),
        Nat.div_eq_of_lt (show L % M + M - 1 - M < M by omega)]
    omega

/-- C2: with `L` items and `maxConcurrency M ≥ 1`, an error-free run of the
engine (`Upload`, or `Download` with no specific-file filter) executes batches
of sizes `M, ..., M, L mod M` (no trailing partial batch when `M` divides
`L`), which is exactly `ceil(L/M)` batches, and returns normally; `L = 0`
yields zero batches and immediate normal return. -/
theorem batch_partition_counts (files keys : List String) (M : Nat)
    (path_local : String) (uout : String → UploadOutcome)
    (dout : String → DownloadOutcome) (hM : 1 ≤ M)
    (hu : ∀ f, uout f = UploadOutcome.ok) (hd : ∀ f, dout f = DownloadOutcome.ok) :
    ((Upload files M uout).batches.map List.length =
        List.replicate (files.length / M) M ++
          (if files.length % M = 0 then [] else [files.length % M]) ∧
      (Upload files M uout).batches.length = (files.length + M - 1) / M ∧
      (Upload files M uout).raised = none ∧
      (files = [] → Upload files M uout = ⟨[], [], none⟩)) ∧
    ((Download keys "" path_local M dout).batches.map List.length =
        List.replicate (keys.length / M) M ++
          (if keys.length % M = 0 then [] else [keys.length % M]) ∧
      (Download keys "" path_local M dout).batches.length = (keys.length + M - 1) / M ∧
      (Download keys "" path_local M dout).raised = none ∧
      (keys = [] → Download keys "" path_local M dout = ⟨[], [], none⟩)) := by
  have hu' : ∀ f, UploadIntern f (uout f) = none := by
    intro f
    rw [hu f]
    rfl
  have hd' : ∀ f, DownloadIntern path_local f (dout f) = none := by
    intro f
    rw [hd f]
    rfl
  obtain ⟨hu1, hu2⟩ := batchLoop_sizes M files replaceBackslash (fun _ => true)
    (fun f => UploadIntern f (uout f)) "Could not upload all files: " hM
    (fun _ => rfl) hu' files.length files.length (le_refl _)
  obtain ⟨hd1, hd2⟩ := batchLoop_sizes M keys (fun f => f)
    (fun filename => (("" != "") && ("" == filename)) || ("" == ""))
    (fun f => DownloadIntern path_local f (dout f)) "Could not download all files: " hM
    (fun f => by simp) hd' keys.length keys.length (le_refl _)
  refine ⟨⟨hu1, ?_, hu2, fun h => by subst h; rfl⟩,
    ⟨hd1, ?_, hd2, fun h => by subst h; rfl⟩⟩
  · have hc : (Upload files M uout).batches.length =
        (List.replicate (files.length / M) M ++
          (if files.length % M = 0 then [] else [files.length % M])).length := by
      have h := congrArg List.length hu1
      rwa [List.length_map] at h
    rw [hc, ← ceil_div_eq files.length M hM]
    by_cases hr : files.length % M = 0 <;> simp [hr]
  · have hc : (Download keys "" path_local M dout).batches.length =
        (List.replicate (keys.length / M) M ++
          (if keys.length % M = 0 then [] else [keys.length % M])).length := by
      have h := congrArg List.length hd1
      rwa [List.length_map] at h
    rw [hc, ← ceil_div_eq keys.length M hM]
    by_cases hr : keys.length % M = 0 <;> simp [hr]

theorem batch_partition_counts_witness :
    (1 : Nat) ≤ 2 ∧
      (Upload ["a", "b", "c"] 2 (fun _ => UploadOutcome.ok)).raised = none ∧
      (Download ["k"] "" "p" 2 (fun _ => DownloadOutcome.ok)).raised = none :=
  ⟨by decide,
   (batch_partition_counts ["a", "b", "c"] ["k"] 2 "p" (fun _ => UploadOutcome.ok)
     (fun _ => DownloadOutcome.ok) (by decide) (fun _ => rfl) (fun _ => rfl)).1.2.2.1,
   (batch_partition_counts ["a", "b", "c"] ["k"] 2 "p" (fun _ => UploadOutcome.ok)
     (fun _ => DownloadOutcome.ok) (by decide) (fun _ => rfl) (fun _ => rfl)).2.2.2.1⟩

/-! ## Claim C7: tail-to-head consumption -/

/-- C7: the engine consumes the item list destructively from the tail: the
first executed batch is exactly the last `min(M, L)` items (in pop order, i.e.
reversed, and normalized as launched), and everything launched over the whole
run is a contiguous tail segment of the list processed toward the head — with
all of it consumed when the run returns normally.  Head-to-tail order is never
used. -/
theorem upload_consumes_from_tail (files : List String) (M : Nat)
    (outcome : String → UploadOutcome) (hM : 1 ≤ M) :
    (files ≠ [] →
      (Upload files M outcome).batches.head? =
        some (((files.drop (files.length - min M files.length)).map
          replaceBackslash).reverse)) ∧
    (∃ popped, popped ≤ files.length ∧
      ((Upload files M outcome).raised = none → popped = files.length) ∧
      (Upload files M outcome).batches.flatten =
        ((files.drop (files.length - popped)).map replaceBackslash).reverse) := by
  constructor
  · intro hne
    cases hfl : files.length with
    | zero => exact absurd (List.length_eq_zero.mp hfl) hne
    | succ n =>
      have hbatch := mkBatch_eq files replaceBackslash (fun _ => true) (n + 1)
        (numThreads M (n + 1)) (numThreads_le_index M (n + 1)) (by omega)
      rw [filter_true_eq] at hbatch
      have htake : files.take (n + 1) = files := by
        rw [← hfl, List.take_length]
      rw [htake] at hbatch
      unfold Upload
      rw [hfl]
      by_cases hE : (mkBatch files replaceBackslash (fun _ => true) (n + 1)
          (numThreads M (n + 1))).filterMap (fun f => UploadIntern f (outcome f)) = []
      · rw [batchLoop_step_go M files replaceBackslash (fun _ => true)
            (fun f => UploadIntern f (outcome f)) "Could not upload all files: "
            n (n + 1) [] [] (by omega) hE,
          batchLoop_acc M files replaceBackslash (fun _ => true)
            (fun f => UploadIntern f (outcome f)) "Could not upload all files: "
            n ((n + 1) - numThreads M (n + 1)) _ _]
        simp only [List.nil_append, List.cons_append, List.head?_cons]
        rw [hbatch, numThreads_eq_min]
      · rw [batchLoop_step_stop M files replaceBackslash (fun _ => true)
            (fun f => UploadIntern f (outcome f)) "Could not upload all files: "
            n (n + 1) [] [] (by omega) hE]
        simp only [List.nil_append, List.head?_cons]
        rw [hbatch, numThreads_eq_min]
  · obtain ⟨popped, h1, h2, h3⟩ :=
      batchLoop_flatten_segment M files replaceBackslash (fun _ => true)
        (fun f => UploadIntern f (outcome f)) "Could not upload all files: " hM
        files.length files.length (le_refl _) (le_refl _)
    rw [List.take_length, filter_true_eq] at h3
    exact ⟨popped, h1, h2, h3⟩

theorem upload_consumes_from_tail_witness :
    (["x", "y", "z"] : List String) ≠ [] ∧
      (Upload ["x", "y", "z"] 2 (fun _ => UploadOutcome.ok)).batches.head? =
        some (((["x", "y", "z"].drop (["x", "y", "z"].length -
          min 2 ["x", "y", "z"].length)).map replaceBackslash).reverse) :=
  ⟨by decide,
   (upload_consumes_from_tail ["x", "y", "z"] 2 (fun _ => UploadOutcome.ok)
     (by decide)).1 (by decide)⟩

/-! ## Claim C4: `_FetchErrors` drains and raises -/

/-- C4: if the error log holds recorded messages `m1..mN` (`N ≥ 1`),
`_FetchErrors` raises exactly one exception whose message is the prefix
followed by the messages joined by the `". "` separator, and clears the log;
on an empty log it returns normally without changing anything, so an
immediately repeated drain with no new records is a no-op. -/
theorem fetchErrors_drain_spec (pre : String) (errors : List String) :
    (errors ≠ [] →
      FetchErrors pre errors = (some (pre ++ joinSep ". " errors), []) ∧
      FetchErrors pre (FetchErrors pre errors).2 = (none, [])) ∧
    (errors = [] → FetchErrors pre errors = (none, errors)) := by
  constructor
  · intro h
    have hlen : errors.length ≠ 0 := by simpa using h
    refine ⟨by simp [FetchErrors, hlen], ?_⟩
    simp [FetchErrors, hlen]
  · intro h
    subst h
    simp [FetchErrors]

theorem fetchErrors_drain_spec_witness :
    (["m1", "m2"] : List String) ≠ [] ∧
      FetchErrors "E: " ["m1", "m2"] = (some ("E: " ++ joinSep ". " ["m1", "m2"]), []) :=
  ⟨by decide, ((fetchErrors_drain_spec "E: " ["m1", "m2"]).1 (by decide)).1⟩

/-! ## Claim C5: `_RefreshToken` on a response missing a field -/

/-- C5 counterexample: the claim says that on a response lacking an expected
field the *entire* session state is unchanged.  For a response that carries
`access_token` but lacks `refresh_token`, line 147 has already overwritten
`self.token` when line 148 raises its `KeyError`: the error propagates but the
session is left partially mutated (its token is the new one). -/
theorem refreshToken_partial_mutation_counterexample :
    (RefreshToken ⟨"old", "oldr", 7, bearerHeaders "old"⟩ ⟨some "new", none⟩ 9).2 ≠ none ∧
    (RefreshToken ⟨"old", "oldr", 7, bearerHeaders "old"⟩ ⟨some "new", none⟩ 9).1 ≠
      ⟨"old", "oldr", 7, bearerHeaders "old"⟩ ∧
    (RefreshToken ⟨"old", "oldr", 7, bearerHeaders "old"⟩ ⟨some "new", none⟩ 9).1.token
      = "new" := by
  decide

/-- C5 as amended: a response lacking `access_token` makes `_RefreshToken` fail
with the whole session unchanged; a response carrying `access_token` but
lacking `refresh_token` makes it fail with `accessToken` already replaced while
`refreshToken`, `authHeaders` and `lastRefreshedAt` keep their old values; a
response carrying both fields atomically replaces all four fields. -/
theorem refreshToken_amended (s : Session) (resp : AuthResponse) (now : Int) :
    (resp.access_token = none →
      RefreshToken s resp now = (s, some "KeyError: access_token")) ∧
    (∀ tok, resp.access_token = some tok → resp.refresh_token = none →
      RefreshToken s resp now = ({ s with token := tok }, some "KeyError: refresh_token")) ∧
    (∀ tok rtok, resp.access_token = some tok → resp.refresh_token = some rtok →
      RefreshToken s resp now =
        ({ token := tok, refresh_token := rtok, last_updated := now,
           headers := bearerHeaders tok }, none)) := by
  refine ⟨fun h => ?_, fun tok h1 h2 => ?_, fun tok rtok h1 h2 => ?_⟩
  · simp [RefreshToken, h]
  · simp [RefreshToken, h1, h2]
  · simp [RefreshToken, h1, h2]

theorem refreshToken_amended_witness :
    RefreshToken ⟨"old", "oldr", 7, bearerHeaders "old"⟩ ⟨some "new", some "newr"⟩ 9 =
      ({ token := "new", refresh_token := "newr", last_updated := 9,
         headers := bearerHeaders "new" }, none) :=
  (refreshToken_amended ⟨"old", "oldr", 7, bearerHeaders "old"⟩
    ⟨some "new", some "newr"⟩ 9).2.2 "new" "newr" rfl rfl

/-! ## Claim C6: `authHeaders` derived from `accessToken` -/

/-- C6 counterexample: the invariant "`authHeaders` is always the header map
derived from the current `accessToken`" is **not** preserved by every
operation that terminates by raising: a refresh whose response carries
`access_token` but lacks `refresh_token` raises after overwriting the token
(line 147) and before rebuilding the headers (line 150), leaving the two
fields out of sync at a point the caller observes (the exception reaches it). -/
theorem headers_out_of_sync_counterexample :
    headersSynced ⟨"old", "oldr", 7, bearerHeaders "old"⟩ ∧
    (RefreshToken ⟨"old", "oldr", 7, bearerHeaders "old"⟩ ⟨some "new", none⟩ 9).2 ≠ none ∧
    ¬ headersSynced
        (RefreshToken ⟨"old", "oldr", 7, bearerHeaders "old"⟩ ⟨some "new", none⟩ 9).1 := by
  decide

/-- C6 as amended: every refresh that returns normally re-establishes the
invariant (`authHeaders` is rebuilt from the new `accessToken` on line 150),
and the failure path that reads no token at all (missing `access_token`)
leaves the session untouched, so the invariant is preserved there as well; the
only way the two fields go out of sync is the raising path of a refresh whose
response holds `access_token` but lacks `refresh_token`. -/
theorem headersSynced_amended (s : Session) (resp : AuthResponse) (now : Int) :
    ((RefreshToken s resp now).2 = none → headersSynced (RefreshToken s resp now).1) ∧
    (resp.access_token = none → (RefreshToken s resp now).1 = s) := by
  rcases resp with ⟨_ | tok, _ | rtok⟩ <;>
    simp [RefreshToken, headersSynced]

theorem headersSynced_amended_witness :
    headersSynced
      (RefreshToken ⟨"old", "oldr", 7, bearerHeaders "old"⟩ ⟨some "new", some "newr"⟩ 9).1 :=
  (headersSynced_amended ⟨"old", "oldr", 7, bearerHeaders "old"⟩
    ⟨some "new", some "newr"⟩ 9).1 rfl

/-! ## Claim C8: `_CheckLastHeartbeat` refresh condition -/

/-- C8: `_CheckLastHeartbeat` triggers a refresh iff
`now - lastRefreshedAt > refreshInterval`, and two immediately successive
calls (same clock reading) trigger at most one refresh, because a successful
refresh stores `now` into `lastRefreshedAt` (line 149).  `refreshInterval` is
a duration, hence the hypothesis `0 ≤ refresh_interval` (the configured value
is an `int` with default `3600`).  The second conjunct assumes the first call
did not raise, which is the situation in which a second call can follow. -/
theorem heartbeat_refresh_iff (s : Session) (ri : Int) (resp : AuthResponse) (now : Int)
    (hri : 0 ≤ ri) :
    ((CheckLastHeartbeat s ri resp now).2.2 = true ↔ now - s.last_updated > ri) ∧
    ((CheckLastHeartbeat s ri resp now).2.1 = none →
      ¬((CheckLastHeartbeat s ri resp now).2.2 = true ∧
        (CheckLastHeartbeat (CheckLastHeartbeat s ri resp now).1 ri resp now).2.2 = true)) := by
  by_cases h : now - s.last_updated > ri
  · refine ⟨by simp [CheckLastHeartbeat, h], fun hnone hboth => ?_⟩
    obtain ⟨-, hsecond⟩ := hboth
    rcases resp with ⟨_ | tok, _ | rtok⟩
    · simp [CheckLastHeartbeat, RefreshToken, h] at hnone
    · simp [CheckLastHeartbeat, RefreshToken, h] at hnone
    · simp [CheckLastHeartbeat, RefreshToken, h] at hnone
    · have hstop : ¬ ri < 0 := by omega
      simp [CheckLastHeartbeat, RefreshToken, h, hstop] at hsecond
  · refine ⟨by simp [CheckLastHeartbeat, h], fun _ hboth => ?_⟩
    obtain ⟨hfirst, -⟩ := hboth
    simp [CheckLastHeartbeat, h] at hfirst

theorem heartbeat_refresh_iff_witness :
    (0 : Int) ≤ 10 ∧
      ((CheckLastHeartbeat ⟨"t", "r", 0, bearerHeaders "t"⟩ 10
          ⟨some "n", some "nr"⟩ 20).2.2 = true ↔ (20 : Int) - 0 > 10) :=
  ⟨by decide,
   (heartbeat_refresh_iff ⟨"t", "r", 0, bearerHeaders "t"⟩ 10
      ⟨some "n", some "nr"⟩ 20 (by decide)).1⟩

/-! ## Claim C3: `_CheckConnected` retry loop -/

/-- The loop performing all of its remaining probes unsuccessfully: it raises
with `probes + remaining` probe calls made in total. -/
theorem checkConnectedLoop_all_fail (probe : Nat → Bool) :
    ∀ remaining probes, (∀ j, probes < j → j ≤ probes + remaining → probe j = false) →
      CheckConnectedLoop probe remaining probes =
        (probes + remaining, some "Could not connect to OneDrive")
  | 0, probes, _ => by simp [CheckConnectedLoop]
  | n + 1, probes, h => by
    have hp : probe (probes + 1) = false := h _ (by omega) (by omega)
    simp only [CheckConnectedLoop, hp, if_neg, Bool.false_eq_true, not_false_eq_true]
    rw [checkConnectedLoop_all_fail probe n (probes + 1)
      (fun j h1 h2 => h j (by omega) (by omega))]
    congr 1
    omega

/-- The loop when the first successful probe is the `k`-th and the loop is
allowed to reach it: it stops right there having made exactly `k` probes. -/
theorem checkConnectedLoop_first_success (probe : Nat → Bool) :
    ∀ remaining probes k, probes < k → k ≤ probes + remaining → probe k = true →
      (∀ j, probes < j → j < k → probe j = false) →
      CheckConnectedLoop probe remaining probes = (k, none)
  | 0, probes, k, h1, h2, _, _ => absurd (Nat.lt_of_lt_of_le h1 (by omega)) (lt_irrefl _)
  | n + 1, probes, k, h1, h2, hk, hbefore => by
    by_cases he : k = probes + 1
    · subst he
      simp [CheckConnectedLoop, hk]
    · have hp : probe (probes + 1) = false := hbefore _ (by omega) (by omega)
      simp only [CheckConnectedLoop, hp, Bool.false_eq_true, not_false_eq_true, if_neg]
      exact checkConnectedLoop_first_success probe n (probes + 1) k (by omega) (by omega)
        hk (fun j ha hb => hbefore j (by omega) hb)

/-- C3 counterexample: with `maxAttempts = 1` and a probe that would succeed on
its first attempt (`k = 1 ≤ maxAttempts`), the loop raises the connection error
having made `0` probe calls, because line 170 compares `attempts` against
`number_retry_connection` *before* calling `_Connect()`; the claim instead
demands a success after exactly `1` probe call. -/
theorem checkConnected_counterexample :
    (fun _ => true : Nat → Bool) 1 = true ∧ (1 : Nat) ≤ 1 ∧
    CheckConnected false 1 (fun _ => true) ≠ (1, none) ∧
    CheckConnected false 1 (fun _ => true) = (0, some "Could not connect to OneDrive") := by
  decide

/-- C3 as amended: when the session is not connected, `_CheckConnected`
performs exactly `maxAttempts - 1` refresh-then-probe cycles before failing
with the connection error (the raise at line 170-171 happens when the attempt
counter *reaches* `maxAttempts`, before that attempt's probe), and when the
probe first succeeds on attempt `k` with `k ≤ maxAttempts - 1` it performs
exactly `k` probe calls and stops retrying. -/
theorem checkConnected_amended (maxA : Nat) (probe : Nat → Bool) (k : Nat)
    (hM : 1 ≤ maxA) :
    ((∀ j, 1 ≤ j → j ≤ maxA - 1 → probe j = false) →
      CheckConnected false maxA probe =
        (maxA - 1, some "Could not connect to OneDrive")) ∧
    (1 ≤ k → k ≤ maxA - 1 → probe k = true → (∀ j, 1 ≤ j → j < k → probe j = false) →
      CheckConnected false maxA probe = (k, none)) := by
  constructor
  · intro h
    unfold CheckConnected
    rw [if_neg (by simp)]
    simpa using checkConnectedLoop_all_fail probe (maxA - 1) 0
      (fun j h1 h2 => h j h1 (by omega))
  · intro h1 h2 hk hbefore
    unfold CheckConnected
    rw [if_neg (by simp)]
    exact checkConnectedLoop_first_success probe (maxA - 1) 0 k h1 (by omega) hk
      (fun j ha hb => hbefore j ha hb)

theorem checkConnected_amended_witness :
    (1 : Nat) ≤ 3 ∧ CheckConnected false 3 (fun j => j == 2) = (2, none) :=
  ⟨by decide,
   (checkConnected_amended 3 (fun j => j == 2) 2 (by decide)).2 (by decide) (by decide)
     (by decide)
     (fun j ha hb => by
       have hj : j = 1 := by omega
       subst hj
       decide)⟩

/-! ## Claim C10: `MoveFile` with an absent filename -/

/-- C10: when `arg_filename` is not among the filenames listed in the source
directory, the `for` loop of `MoveFile` (lines 308-321) matches nothing: the
call returns normally, issues no patch request, records no error and raises
nothing. -/
theorem moveFile_absent_noop (src : String) (files_ids : List (String × String))
    (arg_filename : String) (patchResp : String → Option String)
    (h : ∀ p ∈ files_ids, p.1 ≠ arg_filename) :
    MoveFile src files_ids arg_filename patchResp = ⟨[], none, []⟩ := by
  induction files_ids with
  | nil => rfl
  | cons p rest ih =>
    obtain ⟨filename, file_id⟩ := p
    have hne : (filename == arg_filename) = false := by
      simpa using h (filename, file_id) (List.mem_cons_self _ _)
    simpa [MoveFile, hne] using ih (fun q hq => h q (List.mem_cons_of_mem _ hq))

theorem moveFile_absent_noop_witness :
    (∀ p ∈ [("a", "id1"), ("b", "id2")], Prod.fst p ≠ "c") ∧
      MoveFile "src" [("a", "id1"), ("b", "id2")] "c" (fun _ => none) = ⟨[], none, []⟩ :=
  ⟨by decide, moveFile_absent_noop "src" [("a", "id1"), ("b", "id2")] "c"
    (fun _ => none) (by decide)⟩

/-! ## Claim C9: configuration validation at construction -/

/-- A successful checked set means the key is present with the right type. -/
theorem setsChecksVariable_ok {params : List (String × PVal)} {var : String}
    {ty : PType} {v : PVal} (h : SetsAndChecksVariable params var ty = .ok v) :
    lookupParam params var = some v ∧ v.hasType ty = true := by
  unfold SetsAndChecksVariable at h
  rcases hl : lookupParam params var with _ | w <;> rw [hl] at h
  · simp at h
  · by_cases ht : w.hasType ty
    · simp [ht] at h
      subst h
      exact ⟨rfl, ht⟩
    · simp [ht] at h

/-- If `_SetParameters`' body completes, every required setting was present
with its required type. -/
theorem setParametersCore_ok_required {params : List (String × PVal)} {p : Params}
    (h : SetParametersCore params = .ok p) :
    ∀ vt ∈ requiredFields, ∃ v, lookupParam params vt.1 = some v ∧ v.hasType vt.2 = true := by
  unfold SetParametersCore at h
  rcases h1 : SetsAndChecksVariable params "max_threads" PType.tInt with e1 | v1 <;>
    rw [h1] at h
  · simp at h
  rcases h2 : SetsAndChecksVariable params "refresh_token" PType.tStr with e2 | v2 <;>
    rw [h2] at h
  · simp at h
  rcases h3 : SetsAndChecksVariable params "browse_url" PType.tStr with e3 | v3 <;>
    rw [h3] at h
  · simp at h
  rcases h4 : SetsAndChecksVariable params "auth_url" PType.tStr with e4 | v4 <;>
    rw [h4] at h
  · simp at h
  rcases h5 : SetsAndChecksVariable params "client_id" PType.tStr with e5 | v5 <;>
    rw [h5] at h
  · simp at h
  rcases h6 : SetsAndChecksVariable params "permissions" PType.tList with e6 | v6 <;>
    rw [h6] at h
  · simp at h
  rcases h7 : SetsAndChecksVariable params "redirect_uri" PType.tStr with e7 | v7 <;>
    rw [h7] at h
  · simp at h
  intro vt hmem
  simp only [requiredFields, List.mem_cons, List.not_mem_nil, or_false] at hmem
  rcases hmem with rfl | rfl | rfl | rfl | rfl | rfl | rfl
  · exact ⟨v1, setsChecksVariable_ok h1⟩
  · exact ⟨v2, setsChecksVariable_ok h2⟩
  · exact ⟨v3, setsChecksVariable_ok h3⟩
  · exact ⟨v4, setsChecksVariable_ok h4⟩
  · exact ⟨v5, setsChecksVariable_ok h5⟩
  · exact ⟨v6, setsChecksVariable_ok h6⟩
  · exact ⟨v7, setsChecksVariable_ok h7⟩

/-- C9 counterexample: a configuration whose *optional* setting
`refresh_interval` is present with the wrong type (a string).  The claim says
construction fails with a configuration error before any network call; the
code instead swallows the type error inside
`_SetsAndChecksVariableWithDefaultValue` (bare `except:`, line 77), installs
the default `3600`, completes construction and proceeds to the network. -/
def mistypedOptionalConfig : List (String × PVal) :=
  [("max_threads", .pInt 2), ("refresh_token", .pStr "r"), ("browse_url", .pStr "b"),
   ("auth_url", .pStr "a"), ("client_id", .pStr "c"), ("permissions", .pList [.pStr "p"]),
   ("redirect_uri", .pStr "u"), ("refresh_interval", .pStr "oops")]

theorem setParameters_mistyped_optional_counterexample :
    lookupParam mistypedOptionalConfig "refresh_interval" = some (.pStr "oops") ∧
    (PVal.pStr "oops").hasType .tInt = false ∧
    (∃ p, SetParameters mistypedOptionalConfig = .ok p ∧ p.refresh_interval = 3600) ∧
    InitAttemptsNetwork mistypedOptionalConfig = true :=
  ⟨rfl, rfl, ⟨_, rfl, rfl⟩, rfl⟩

/-- C9 as amended: for every configuration in which one of the seven
*required* settings (`max_threads`, `refresh_token`, `browse_url`, `auth_url`,
`client_id`, `permissions`, `redirect_uri`) is missing or has the wrong type,
construction fails with a configuration error (`"Could not initialize
parameters: ..."`) raised before any network call is attempted.  A present but
mistyped *optional* setting (`refresh_interval`, `number_retry_connection`)
does not fail construction: it is silently replaced by its default. -/
theorem setParameters_required_missing_or_mistyped (params : List (String × PVal))
    (var : String) (ty : PType) (hmem : (var, ty) ∈ requiredFields)
    (hbad : lookupParam params var = none ∨
      ∃ v, lookupParam params var = some v ∧ v.hasType ty = false) :
    (∃ e, SetParameters params = .error ("Could not initialize parameters: " ++ e)) ∧
    InitAttemptsNetwork params = false := by
  have hcore : ∀ p, SetParametersCore params ≠ .ok p := by
    intro p hok
    obtain ⟨w, hw, hwt⟩ := setParametersCore_ok_required hok (var, ty) hmem
    rcases hbad with hnone | ⟨v, hv, hty⟩
    · rw [hnone] at hw
      cases hw
    · rw [hv] at hw
      obtain rfl : v = w := by injection hw
      rw [hwt] at hty
      cases hty
  rcases hres : SetParametersCore params with e | p
  · constructor
    · refine ⟨e, ?_⟩
      unfold SetParameters
      rw [hres]
    · unfold InitAttemptsNetwork SetParameters
      rw [hres]
  · exact absurd hres (hcore p)

/-- A configuration missing the required `client_id`. -/
def missingClientIdConfig : List (String × PVal) :=
  [("max_threads", .pInt 2), ("refresh_token", .pStr "r"), ("browse_url", .pStr "b"),
   ("auth_url", .pStr "a"), ("permissions", .pList []), ("redirect_uri", .pStr "u")]

theorem setParameters_required_missing_witness :
    ("client_id", PType.tStr) ∈ requiredFields ∧
    (∃ e, SetParameters missingClientIdConfig =
      .error ("Could not initialize parameters: " ++ e)) ∧
    InitAttemptsNetwork missingClientIdConfig = false :=
  ⟨by decide,
   (setParameters_required_missing_or_mistyped missingClientIdConfig "client_id" .tStr
     (by decide) (Or.inl rfl)).1,
   (setParameters_required_missing_or_mistyped missingClientIdConfig "client_id" .tStr
     (by decide) (Or.inl rfl)).2⟩

end OneDriveAPI
